import Mathlib

/-
Verification of the pydrawise GraphQL client (src/pydrawise/client.py).

The embedding models the wire-level JSON values exchanged with the
Hydrawise GraphQL endpoint, the mutation-result interpretation performed
by `Hydrawise._mutation`, the argument sets built by the facade's
mutation methods, the memoized schema builder `_get_schema`, and the
session lifecycle of `_query` / `_mutation` (token fetch, `async with`
scoped session, request, release).

Collaborator modules that are not part of the client source
(`schema.py`, `schema_utils.py`, `auth.py`) are modelled from the
specification where a claim needs them; such definitions carry a
`Modelled from the spec:` doc comment.
-/

set_option autoImplicit false

namespace Pydrawise

/-- Wire-level JSON values as parsed from a GraphQL response (Python
objects: dict, bool, str, int, list, None). -/
inductive Wire where
  | dict : List (String × Wire) → Wire
  | bool : Bool → Wire
  | str : String → Wire
  | num : Int → Wire
  | list : List Wire → Wire
  | null : Wire

/-- Python truthiness of a wire value (`not resp` negates this). -/
def truthy : Wire → Bool
  | .dict d => !d.isEmpty
  | .bool b => b
  | .str s => !(s == "")
  | .num n => !(n == 0)
  | .list l => !l.isEmpty
  | .null => false

/-- Python `==` between an arbitrary wire value and a string literal:
true exactly when the value is that string. -/
def wireEqStr (w : Wire) (s : String) : Bool :=
  match w with
  | .str t => t == s
  | _ => false

/-- Errors that client operations can surface.  `mutationError` carries
the optional message value (`MutationError(resp["summary"])` passes the
summary wire value; bare `raise MutationError` carries none).
`keyError` models Python dict indexing on a missing key. -/
inductive Err where
  | mutationError : Option Wire → Err
  | keyError : String → Err
  | deserializationError : String → Err
  | authenticationError : Err
  | transportError : Err

/-- First-match association lookup; Python dicts have unique keys, so
this models `d[k]`-style access returning `none` when the key is
absent. -/
def lookup : List (String × Wire) → String → Option Wire
  | [], _ => none
  | (k, v) :: rest, key => if k == key then some v else lookup rest key

/-- `Hydrawise._mutation`, lines 69-76 of client.py: read
`result[selector.name]` (KeyError when absent); a dict response
succeeds when `resp["status"] == "OK"` and otherwise raises
`MutationError(resp["summary"])` (each dict index raising KeyError when
the key is missing); a non-dict response raises a bare `MutationError`
when falsy and otherwise falls through (success). -/
def interpretMutation (result : List (String × Wire)) (name : String) :
    Except Err Unit :=
  match lookup result name with
  | none => .error (.keyError name)
  | some (.dict d) =>
    match lookup d "status" with
    | none => .error (.keyError "status")
    | some status =>
      if !(wireEqStr status "OK") then
        match lookup d "summary" with
        | none => .error (.keyError "summary")
        | some summary => .error (.mutationError (some summary))
      else
        .ok ()
  | some w => if !(truthy w) then .error (.mutationError none) else .ok ()

theorem wireEqStr_true_iff (w : Wire) (s : String) :
    wireEqStr w s = true ↔ w = .str s := by
  cases w <;> simp [wireEqStr]

/-- C1: for every mutation, reading the wire result under the
operation's own top-level key: a structured status object (a dict with
`status` and `summary` fields) succeeds exactly when `status` equals
`"OK"` and otherwise raises `MutationError` carrying the summary; a
bare boolean succeeds exactly when it is true, and `false` raises a
generic `MutationError` with no message. -/
theorem mutation_result_interpretation
    (result : List (String × Wire)) (name : String)
    (d : List (String × Wire)) (st sm : Wire) (b : Bool) :
    (lookup result name = some (.dict d) →
      lookup d "status" = some st →
      lookup d "summary" = some sm →
      ((interpretMutation result name = .ok () ↔ st = .str "OK") ∧
       (st ≠ .str "OK" →
         interpretMutation result name =
           .error (.mutationError (some sm))))) ∧
    (lookup result name = some (.bool b) →
      ((interpretMutation result name = .ok () ↔ b = true) ∧
       (b = false →
         interpretMutation result name = .error (.mutationError none)))) := by
  constructor
  · intro hres hst hsm
    rw [show interpretMutation result name =
        (if !(wireEqStr st "OK") then
          Except.error (Err.mutationError (some sm))
        else Except.ok ()) by
      simp [interpretMutation, hres, hst, hsm]]
    by_cases hOK : st = Wire.str "OK"
    · subst hOK
      simp [wireEqStr]
    · have hb : wireEqStr st "OK" = false := by
        rcases h : wireEqStr st "OK" with _ | _
        · rfl
        · exact absurd ((wireEqStr_true_iff st "OK").mp h) hOK
      simp [hb, hOK]
  · intro hres
    rw [show interpretMutation result name =
        (if !(truthy (Wire.bool b)) then
          Except.error (Err.mutationError none)
        else Except.ok ()) by
      simp [interpretMutation, hres]]
    cases b <;> simp [truthy]

/-- C1 witness: the spec's worked example — a `startZone` response with
status `"ERROR"` and summary `"zone busy"` raises `MutationError` with
message `"zone busy"`. -/
theorem mutation_result_interpretation_witness :
    interpretMutation
      [("startZone",
        Wire.dict [("status", Wire.str "ERROR"),
                   ("summary", Wire.str "zone busy")])] "startZone" =
      .error (.mutationError (some (Wire.str "zone busy"))) :=
  ((mutation_result_interpretation
      [("startZone",
        Wire.dict [("status", Wire.str "ERROR"),
                   ("summary", Wire.str "zone busy")])] "startZone"
      [("status", Wire.str "ERROR"), ("summary", Wire.str "zone busy")]
      (Wire.str "ERROR") (Wire.str "zone busy") true).1
    rfl rfl rfl).2
    (fun h => absurd (Wire.str.inj h) (by decide))

/-- C3 counterexample: a truthy non-dict, non-bool wire value — the
string `"yes"` — is silently treated as success by the interpreter,
contradicting the claim that any such shape fails the call. -/
theorem truthy_nonbool_counterexample :
    interpretMutation [("startZone", Wire.str "yes")] "startZone" =
      .ok () := by
  simp [interpretMutation, lookup, truthy]

/-- C3 amended: a non-dict wire value is interpreted by Python
truthiness exactly like a boolean — a falsy value raises a generic
`MutationError`, while a truthy value (including a non-empty string or
a nonzero number) is silently treated as success; there is no
protocol-violation check. -/
theorem truthy_nonbool_amended
    (result : List (String × Wire)) (name : String) (w : Wire) :
    lookup result name = some w → (∀ d, w ≠ Wire.dict d) →
    ((truthy w = true → interpretMutation result name = .ok ()) ∧
     (truthy w = false →
       interpretMutation result name = .error (.mutationError none))) := by
  intro hres hnd
  have step : interpretMutation result name =
      (if !(truthy w) then Except.error (Err.mutationError none)
       else Except.ok ()) := by
    cases w with
    | dict d => exact absurd rfl (hnd d)
    | bool b => simp [interpretMutation, hres]
    | str s => simp [interpretMutation, hres]
    | num n => simp [interpretMutation, hres]
    | list l => simp [interpretMutation, hres]
    | null => simp [interpretMutation, hres]
  constructor
  · intro ht
    simp [step, ht]
  · intro hf
    simp [step, hf]

/-- C3 amended witness: `5` under the operation key is truthy and
non-dict, and the call succeeds. -/
theorem truthy_nonbool_amended_witness :
    interpretMutation [("stopZone", Wire.num 5)] "stopZone" = .ok () :=
  (truthy_nonbool_amended [("stopZone", Wire.num 5)] "stopZone"
      (Wire.num 5) rfl (fun _ h => Wire.noConfusion h)).1 (by decide)

/-- C10: a dict response missing the `status` key raises `KeyError`,
not `MutationError`; a dict whose status is not `"OK"` but missing the
`summary` key raises `KeyError`; and a `MutationError` carrying a
summary is raised only when both keys are present. -/
theorem mutation_dict_missing_keys
    (result : List (String × Wire)) (name : String)
    (d : List (String × Wire)) (st : Wire) :
    (lookup result name = some (.dict d) →
      lookup d "status" = none →
      interpretMutation result name = .error (.keyError "status")) ∧
    (lookup result name = some (.dict d) →
      lookup d "status" = some st → st ≠ .str "OK" →
      lookup d "summary" = none →
      interpretMutation result name = .error (.keyError "summary")) ∧
    (∀ m : Wire, lookup result name = some (.dict d) →
      interpretMutation result name = .error (.mutationError (some m)) →
      ∃ stv, lookup d "status" = some stv ∧ stv ≠ .str "OK" ∧
        lookup d "summary" = some m) := by
  refine ⟨?_, ?_, ?_⟩
  · intro hres hst
    simp [interpretMutation, hres, hst]
  · intro hres hst hne hsm
    have hb : wireEqStr st "OK" = false := by
      rcases h : wireEqStr st "OK" with _ | _
      · rfl
      · exact absurd ((wireEqStr_true_iff st "OK").mp h) hne
    simp [interpretMutation, hres, hst, hsm, hb]
  · intro m hres herr
    cases hst : lookup d "status" with
    | none =>
      rw [show interpretMutation result name =
          Except.error (Err.keyError "status") by
        simp [interpretMutation, hres, hst]] at herr
      exact Err.noConfusion (Except.error.inj herr)
    | some stv =>
      by_cases hOK : stv = Wire.str "OK"
      · subst hOK
        rw [show interpretMutation result name = Except.ok () by
          simp [interpretMutation, hres, hst, wireEqStr]] at herr
        exact Except.noConfusion herr
      · have hb : wireEqStr stv "OK" = false := by
          rcases h : wireEqStr stv "OK" with _ | _
          · rfl
          · exact absurd ((wireEqStr_true_iff stv "OK").mp h) hOK
        cases hsm : lookup d "summary" with
        | none =>
          rw [show interpretMutation result name =
              Except.error (Err.keyError "summary") by
            simp [interpretMutation, hres, hst, hb, hsm]] at herr
          exact Err.noConfusion (Except.error.inj herr)
        | some smv =>
          rw [show interpretMutation result name =
              Except.error (Err.mutationError (some smv)) by
            simp [interpretMutation, hres, hst, hb, hsm]] at herr
          have hsmm : smv = m :=
            Option.some.inj
              (Err.mutationError.inj (Except.error.inj herr))
          exact ⟨stv, rfl, hOK, by rw [hsmm]⟩

/-- C10 witness: an empty dict response raises `KeyError` for
`status`. -/
theorem mutation_dict_missing_keys_witness :
    interpretMutation [("startZone", Wire.dict [])] "startZone" =
      .error (.keyError "status") :=
  (mutation_dict_missing_keys [("startZone", Wire.dict [])] "startZone"
      [] Wire.null).1 rfl rfl

/-- A GraphQL argument value passed to a mutation selector. -/
inductive Arg where
  | int : Int → Arg
  | bool : Bool → Arg
  | str : String → Arg
deriving DecidableEq, Repr

/-- Modelled from the spec: the Zone entity (schema.py is not under
src/) — an integer identifier, descriptive attributes, and the parent
controller reference set at fetch time. -/
structure Zone where
  id : Int
  name : String
  controllerId : Int
deriving DecidableEq, Repr

/-- Modelled from the spec: the Controller entity (schema.py is not
under src/) — an integer identifier and descriptive attributes. -/
structure Controller where
  id : Int
  name : String
deriving DecidableEq, Repr

/-- Modelled from the spec: the ZoneSuspension entity (schema.py is not
under src/) — an integer identifier, a zone reference, and an expiry
timestamp. -/
structure ZoneSuspension where
  id : Int
  zoneId : Int
  untilTime : String
deriving DecidableEq, Repr

/-- Modelled from the spec: the DateTime domain timestamp (schema.py is
not under src/); `to_json` produces its documented wire encoding
(`DateTime.to_json(until).value` in the source). -/
structure DateTimeV where
  wireValue : String
deriving DecidableEq, Repr

def dateTime_to_json (t : DateTimeV) : String := t.wireValue

/-- First-match lookup in a mutation argument set. -/
def argsLookup : List (String × Arg) → String → Option Arg
  | [], _ => none
  | (k, v) :: rest, key => if k == key then some v else argsLookup rest key

/-- Whether an argument key is present in a mutation argument set. -/
def argsHaveKey (args : List (String × Arg)) (k : String) : Bool :=
  (argsLookup args k).isSome

/-- `Hydrawise.start_zone`, lines 155-160: the kwargs dict holds
`zoneId` and `markRunAsScheduled`, and `customRunDuration` is added
only when strictly positive. -/
def start_zone_kwargs (zone : Zone) (mark_run_as_scheduled : Bool)
    (custom_run_duration : Int) : List (String × Arg) :=
  let kwargs := [("zoneId", Arg.int zone.id),
                 ("markRunAsScheduled", Arg.bool mark_run_as_scheduled)]
  if custom_run_duration > 0 then
    kwargs ++ [("customRunDuration", Arg.int custom_run_duration)]
  else
    kwargs

/-- `Hydrawise.start_all_zones`, lines 194-199: the kwargs dict holds
`controllerId` and `markRunAsScheduled`, and `customRunDuration` is
added only when strictly positive. -/
def start_all_zones_kwargs (controller : Controller)
    (mark_run_as_scheduled : Bool) (custom_run_duration : Int) :
    List (String × Arg) :=
  let kwargs := [("controllerId", Arg.int controller.id),
                 ("markRunAsScheduled", Arg.bool mark_run_as_scheduled)]
  if custom_run_duration > 0 then
    kwargs ++ [("customRunDuration", Arg.int custom_run_duration)]
  else
    kwargs

/-- A single mutation selector: the operation name and its argument
set, as built by each facade method before calling `_mutation`. -/
structure MutationRequest where
  name : String
  args : List (String × Arg)
deriving DecidableEq, Repr

def start_zone_request (zone : Zone) (mark_run_as_scheduled : Bool)
    (custom_run_duration : Int) : MutationRequest :=
  ⟨"startZone",
   start_zone_kwargs zone mark_run_as_scheduled custom_run_duration⟩

def stop_zone_request (zone : Zone) : MutationRequest :=
  ⟨"stopZone", [("zoneId", Arg.int zone.id)]⟩

def start_all_zones_request (controller : Controller)
    (mark_run_as_scheduled : Bool) (custom_run_duration : Int) :
    MutationRequest :=
  ⟨"startAllZones",
   start_all_zones_kwargs controller mark_run_as_scheduled
     custom_run_duration⟩

def stop_all_zones_request (controller : Controller) : MutationRequest :=
  ⟨"stopAllZones", [("controllerId", Arg.int controller.id)]⟩

def suspend_zone_request (zone : Zone) (u : DateTimeV) : MutationRequest :=
  ⟨"suspendZone", [("zoneId", Arg.int zone.id),
                   ("until", Arg.str (dateTime_to_json u))]⟩

def resume_zone_request (zone : Zone) : MutationRequest :=
  ⟨"resumeZone", [("zoneId", Arg.int zone.id)]⟩

def suspend_all_zones_request (controller : Controller) (u : DateTimeV) :
    MutationRequest :=
  ⟨"suspendAllZones", [("controllerId", Arg.int controller.id),
                       ("until", Arg.str (dateTime_to_json u))]⟩

def resume_all_zones_request (controller : Controller) : MutationRequest :=
  ⟨"resumeAllZones", [("controllerId", Arg.int controller.id)]⟩

def delete_zone_suspension_request (suspension : ZoneSuspension) :
    MutationRequest :=
  ⟨"deleteZoneSuspension", [("id", Arg.int suspension.id)]⟩

/-- C2: in both `start_zone` and `start_all_zones`, the
`customRunDuration` key is present in the argument set exactly when the
duration is strictly positive (carrying that value), while
`zoneId`/`controllerId` and `markRunAsScheduled` are always present. -/
theorem custom_run_duration_omission
    (zone : Zone) (controller : Controller) (mark : Bool) (dur : Int) :
    (argsHaveKey (start_zone_kwargs zone mark dur) "customRunDuration" =
      decide (dur > 0)) ∧
    (argsLookup (start_zone_kwargs zone mark dur) "customRunDuration" =
      if dur > 0 then some (Arg.int dur) else none) ∧
    (argsLookup (start_zone_kwargs zone mark dur) "zoneId" =
      some (Arg.int zone.id)) ∧
    (argsLookup (start_zone_kwargs zone mark dur) "markRunAsScheduled" =
      some (Arg.bool mark)) ∧
    (argsHaveKey (start_all_zones_kwargs controller mark dur)
        "customRunDuration" = decide (dur > 0)) ∧
    (argsLookup (start_all_zones_kwargs controller mark dur)
        "customRunDuration" =
      if dur > 0 then some (Arg.int dur) else none) ∧
    (argsLookup (start_all_zones_kwargs controller mark dur)
        "controllerId" = some (Arg.int controller.id)) ∧
    (argsLookup (start_all_zones_kwargs controller mark dur)
        "markRunAsScheduled" = some (Arg.bool mark)) := by
  by_cases hdur : dur > 0 <;>
    simp [start_zone_kwargs, start_all_zones_kwargs, argsHaveKey,
      argsLookup, hdur]

/-- C8: `suspend_all_zones` issues the single mutation
`suspendAllZones(controllerId, until)` with the serialized DateTime,
and `resume_all_zones` issues the single mutation
`resumeAllZones(controllerId)` — the distinct all-zones mutation names,
not the per-zone `suspendZone`/`resumeZone` names. -/
theorem all_zones_mutation_names
    (controller : Controller) (u : DateTimeV) :
    suspend_all_zones_request controller u =
      ⟨"suspendAllZones", [("controllerId", Arg.int controller.id),
                           ("until", Arg.str (dateTime_to_json u))]⟩ ∧
    resume_all_zones_request controller =
      ⟨"resumeAllZones", [("controllerId", Arg.int controller.id)]⟩ ∧
    (suspend_all_zones_request controller u).name ≠
      (suspend_zone_request ⟨controller.id, "", 0⟩ u).name ∧
    (resume_all_zones_request controller).name ≠
      (resume_zone_request ⟨controller.id, "", 0⟩).name := by
  refine ⟨rfl, rfl, ?_, ?_⟩ <;>
    · simp only [suspend_all_zones_request, suspend_zone_request,
        resume_all_zones_request, resume_zone_request]
      decide

/-- C9: every mutation method of the facade reads only the identifier
of the entity it is given — two entities with the same id yield
identical mutation requests — the entity itself is an immutable value
the call never modifies, and on success the interpreter produces no
value besides the unit. -/
theorem mutation_methods_read_only_id
    (z z2 : Zone) (c c2 : Controller) (s s2 : ZoneSuspension)
    (mark : Bool) (dur : Int) (u : DateTimeV) :
    z.id = z2.id → c.id = c2.id → s.id = s2.id →
    (start_zone_request z mark dur = start_zone_request z2 mark dur ∧
     stop_zone_request z = stop_zone_request z2 ∧
     start_all_zones_request c mark dur =
       start_all_zones_request c2 mark dur ∧
     stop_all_zones_request c = stop_all_zones_request c2 ∧
     suspend_zone_request z u = suspend_zone_request z2 u ∧
     resume_zone_request z = resume_zone_request z2 ∧
     suspend_all_zones_request c u = suspend_all_zones_request c2 u ∧
     resume_all_zones_request c = resume_all_zones_request c2 ∧
     delete_zone_suspension_request s =
       delete_zone_suspension_request s2 ∧
     (∀ (result : List (String × Wire)) (opName : String),
       interpretMutation result opName = .ok () ∨
       ∃ e, interpretMutation result opName = .error e)) := by
  intro hz hc hs
  refine ⟨?_, ?_, ?_, ?_, ?_, ?_, ?_, ?_, ?_, ?_⟩
  · simp [start_zone_request, start_zone_kwargs, hz]
  · simp [stop_zone_request, hz]
  · simp [start_all_zones_request, start_all_zones_kwargs, hc]
  · simp [stop_all_zones_request, hc]
  · simp [suspend_zone_request, hz]
  · simp [resume_zone_request, hz]
  · simp [suspend_all_zones_request, hc]
  · simp [resume_all_zones_request, hc]
  · simp [delete_zone_suspension_request, hs]
  · intro result opName
    cases h : interpretMutation result opName with
    | ok u0 => exact Or.inl rfl
    | error e => exact Or.inr ⟨e, rfl⟩

/-- C9 witness: two zones, controllers and suspensions agreeing on id
but nothing else produce identical requests. -/
theorem mutation_methods_read_only_id_witness :
    start_zone_request ⟨7, "front lawn", 1⟩ true 90 =
      start_zone_request ⟨7, "back lawn", 2⟩ true 90 ∧
    delete_zone_suspension_request ⟨3, 7, "2023-01-01"⟩ =
      delete_zone_suspension_request ⟨3, 8, "2024-02-02"⟩ :=
  ⟨(mutation_methods_read_only_id ⟨7, "front lawn", 1⟩ ⟨7, "back lawn", 2⟩
      ⟨1, "a"⟩ ⟨1, "b"⟩ ⟨3, 7, "2023-01-01"⟩ ⟨3, 8, "2024-02-02"⟩
      true 90 ⟨"t"⟩ rfl rfl rfl).1,
   (mutation_methods_read_only_id ⟨7, "front lawn", 1⟩ ⟨7, "back lawn", 2⟩
      ⟨1, "a"⟩ ⟨1, "b"⟩ ⟨3, 7, "2023-01-01"⟩ ⟨3, 8, "2024-02-02"⟩
      true 90 ⟨"t"⟩ rfl rfl rfl).2.2.2.2.2.2.2.2.1⟩

/-- A GraphQL schema descriptor as produced by apischema's
`graphql_schema` (external collaborator), determined by the declared
query and mutation operations. -/
structure GraphQLSchema where
  queryOps : List String
  mutationOps : List String
deriving DecidableEq, Repr

def graphql_schema (q m : List String) : GraphQLSchema := ⟨q, m⟩

/-- Modelled from the spec: the query operations declared on the Query
interface of schema.py (not under src/) — one per read operation of the
facade. -/
def queryOperations : List String := ["me", "controller", "zone"]

/-- Modelled from the spec: the mutation operations declared on the
Mutation interface of schema.py (not under src/). -/
def mutationOperations : List String :=
  ["startZone", "stopZone", "startAllZones", "stopAllZones",
   "suspendZone", "resumeZone", "suspendAllZones", "resumeAllZones",
   "deleteZoneSuspension"]

/-- The body of `_get_schema`, lines 34-39: build the descriptor from
the declared query and mutation operations. -/
def get_schema_build : GraphQLSchema :=
  graphql_schema queryOperations mutationOperations

/-- State of the `functools.cache` wrapper on `_get_schema`, together
with a count of how many times the body has actually run. -/
structure SchemaCache where
  cached : Option GraphQLSchema
  builds : Nat
deriving DecidableEq, Repr

/-- `functools.cache` semantics of `_get_schema`: return the cached
descriptor when present, otherwise run the body once and store the
result. -/
def get_schema : SchemaCache → GraphQLSchema × SchemaCache
  | ⟨some s, b⟩ => (s, ⟨some s, b⟩)
  | ⟨none, b⟩ => (get_schema_build, ⟨some get_schema_build, b + 1⟩)

/-- A process-level step touching the schema cache:
`Hydrawise.__init__` (line 55) calls `_get_schema`; a client operation
(query or mutation, with whatever outcome, including a transport
error) only reads `self._schema` and never writes the cache. -/
inductive ClientStep where
  | clientInit : ClientStep
  | operation : Except Err Wire → ClientStep

def runStep : SchemaCache → ClientStep → SchemaCache
  | st, .clientInit => (get_schema st).2
  | st, .operation _ => st

def runSteps (steps : List ClientStep) (st : SchemaCache) : SchemaCache :=
  steps.foldl runStep st

/-- The schema cache at process start: nothing cached, zero builds. -/
def initialCache : SchemaCache := ⟨none, 0⟩

theorem schemaCache_reachable (steps : List ClientStep) :
    runSteps steps initialCache = initialCache ∨
    runSteps steps initialCache = ⟨some get_schema_build, 1⟩ := by
  induction steps using List.reverseRecOn with
  | nil => exact Or.inl rfl
  | append_singleton steps step ih =>
    rw [runSteps, List.foldl_append, List.foldl_cons, List.foldl_nil]
    rcases ih with h | h <;> rw [runSteps] at h <;> rw [h] <;>
      cases step <;>
      simp [runStep, get_schema, initialCache]

/-- C4: the schema descriptor is built at most once per process, every
`_get_schema` call returns the identical descriptor, and a client
operation — in particular one that fails with a transport error —
leaves the cache untouched. -/
theorem schema_built_once
    (steps : List ClientStep) (st : SchemaCache)
    (outcome : Except Err Wire) :
    (runSteps steps initialCache).builds ≤ 1 ∧
    (get_schema (runSteps steps initialCache)).1 = get_schema_build ∧
    ((get_schema (runSteps steps initialCache)).2).builds ≤ 1 ∧
    runStep st (.operation outcome) = st := by
  rcases schemaCache_reachable steps with h | h <;> rw [h] <;>
    exact ⟨by simp [initialCache, get_schema],
           by simp [initialCache, get_schema],
           by simp [initialCache, get_schema], rfl⟩

/-- A per-call transport session, carrying the fresh session identity
and the bearer token set in its headers. -/
structure Session where
  sid : Nat
  token : String
deriving DecidableEq, Repr

/-- Observable resource events of one client call. -/
inductive Event where
  | tokenFetch : Event
  | acquireSession : Nat → Event
  | sendRequest : Nat → Event
  | releaseSession : Nat → Event
deriving DecidableEq, Repr

def isAcquire : Event → Bool
  | .acquireSession _ => true
  | _ => false

def isRelease : Event → Bool
  | .releaseSession _ => true
  | _ => false

def isSend : Event → Bool
  | .sendRequest _ => true
  | _ => false

/-- The session id an event mentions, if any. -/
def eventSession : Event → Option Nat
  | .tokenFetch => none
  | .acquireSession n => some n
  | .sendRequest n => some n
  | .releaseSession n => some n

/-- `Hydrawise._client`, lines 57-60: fetch the auth token
(`await self._auth.token()`, which may fail), then construct the
transport and client for this single call.  No session is opened yet
and no request has been sent; a token failure propagates
immediately. -/
def client_call (tokenResult : Except Err String) (sid : Nat) :
    Except Err Session × List Event :=
  match tokenResult with
  | .error e => (.error e, [.tokenFetch])
  | .ok t => (.ok ⟨sid, t⟩, [.tokenFetch])

/-- Python `async with` over the gql client: entering opens the
transport session, the body runs, and the session is closed on every
exit path — whether the body returns or raises.  A failed client
construction skips the block entirely (no session to release). -/
def asyncWith {α : Type} (client : Except Err Session × List Event)
    (body : Session → Except Err α × List Event) :
    Except Err α × List Event :=
  match client with
  | (.error e, tr) => (.error e, tr)
  | (.ok s, tr) =>
    let r := body s
    (r.1, tr ++ [.acquireSession s.sid] ++ r.2 ++ [.releaseSession s.sid])

/-- `session.execute(...)`: send the document over the session; the
transport either returns the parsed keyed wire tree or raises (a
transport failure or a GraphQL errors response). -/
def session_execute (transport : Except Err (List (String × Wire)))
    (s : Session) : Except Err (List (String × Wire)) × List Event :=
  (transport, [.sendRequest s.sid])

/-- `Hydrawise._query`, lines 62-64: build the client, open a session
scoped to this call, execute, release. -/
def run_query (tokenResult : Except Err String) (sid : Nat)
    (transport : Except Err (List (String × Wire))) :
    Except Err (List (String × Wire)) × List Event :=
  asyncWith (client_call tokenResult sid) (session_execute transport)

/-- `Hydrawise._mutation`, lines 66-76: like `_query`, with the result
interpreted inside the session block (so an interpretation failure
still releases the session). -/
def run_mutation (tokenResult : Except Err String) (sid : Nat)
    (transport : Except Err (List (String × Wire))) (name : String) :
    Except Err Unit × List Event :=
  asyncWith (client_call tokenResult sid)
    (fun s =>
      let r := session_execute transport s
      match r.1 with
      | .error e => (.error e, r.2)
      | .ok result => (interpretMutation result name, r.2))

/-- C5: each query or mutation execution acquires at most the one fresh
session supplied to the call and releases exactly what it acquires, on
every exit path: the trace is `[tokenFetch]` when the token fails and
`[tokenFetch, acquire, send, release]` otherwise — independent of
whether the transport or the result interpretation succeeds — and every
session event mentions only this call's fresh session id. -/
theorem session_acquire_release
    (tokenResult : Except Err String) (sid : Nat)
    (transport : Except Err (List (String × Wire))) (name : String) :
    ((run_query tokenResult sid transport).2 =
      match tokenResult with
      | .error _ => [.tokenFetch]
      | .ok _ => [.tokenFetch, .acquireSession sid, .sendRequest sid,
                  .releaseSession sid]) ∧
    ((run_mutation tokenResult sid transport name).2 =
      match tokenResult with
      | .error _ => [.tokenFetch]
      | .ok _ => [.tokenFetch, .acquireSession sid, .sendRequest sid,
                  .releaseSession sid]) ∧
    ((run_query tokenResult sid transport).2.countP isAcquire =
      (run_query tokenResult sid transport).2.countP isRelease) ∧
    ((run_mutation tokenResult sid transport name).2.countP isAcquire =
      (run_mutation tokenResult sid transport name).2.countP isRelease) ∧
    ((run_query tokenResult sid transport).2.all
      (fun e => (eventSession e).getD sid == sid) = true) ∧
    ((run_mutation tokenResult sid transport name).2.all
      (fun e => (eventSession e).getD sid == sid) = true) := by
  cases tokenResult <;> cases transport <;>
    refine ⟨rfl, rfl, ?_, ?_, ?_, ?_⟩ <;>
    simp [run_query, run_mutation, asyncWith, client_call,
      session_execute, isAcquire, isRelease, eventSession,
      List.countP_cons]

/-- C6: when token retrieval fails with `AuthenticationError`, the call
fails with that error, no transport session is created and no request
is sent — for queries and mutations alike. -/
theorem auth_failure_before_network
    (sid : Nat) (transport : Except Err (List (String × Wire)))
    (name : String) :
    (run_query (.error .authenticationError) sid transport).1 =
      .error .authenticationError ∧
    (run_query (.error .authenticationError) sid transport).2 =
      [.tokenFetch] ∧
    ((run_query (.error .authenticationError) sid transport).2.any
      isAcquire = false) ∧
    ((run_query (.error .authenticationError) sid transport).2.any
      isSend = false) ∧
    (run_mutation (.error .authenticationError) sid transport name).1 =
      .error .authenticationError ∧
    (run_mutation (.error .authenticationError) sid transport name).2 =
      [.tokenFetch] ∧
    ((run_mutation (.error .authenticationError) sid transport name).2.any
      isAcquire = false) ∧
    ((run_mutation (.error .authenticationError) sid transport name).2.any
      isSend = false) :=
  ⟨rfl, rfl, rfl, rfl, rfl, rfl, rfl, rfl⟩

/-- Whether a client-level computation succeeded. -/
def exceptIsOk {α : Type} : Except Err α → Bool
  | .ok _ => true
  | .error _ => false

/-- Modelled from the spec: `deserialize(Zone, wireValue)` from
schema_utils.py (not under src/): validates the presence and shape of
the required fields (the integer zone identifier and its name),
ignores unknown extra wire fields, raises `DeserializationError` on a
missing or ill-shaped required field, and sets the parent controller
reference at fetch time. -/
def deserializeZone (controllerId : Int) (w : Wire) : Except Err Zone :=
  match w with
  | .dict d =>
    match lookup d "id", lookup d "name" with
    | some (.num i), some (.str n) => .ok ⟨i, n, controllerId⟩
    | _, _ => .error (.deserializationError "Zone")
  | _ => .error (.deserializationError "Zone")

/-- Modelled from the spec: `deserialize(list[Zone], ...)` applies the
single-item rule elementwise, preserving order; any element failure
fails the whole deserialization (no partial result). -/
def deserializeZoneList (controllerId : Int) :
    List Wire → Except Err (List Zone)
  | [] => .ok []
  | w :: ws =>
    match deserializeZone controllerId w with
    | .error e => .error e
    | .ok z =>
      match deserializeZoneList controllerId ws with
      | .error e => .error e
      | .ok zs => .ok (z :: zs)

/-- `Hydrawise.get_zones`, lines 113-124: query
`controller(controllerId=controller.id).zones`, then deserialize
`result["controller"]["zones"]` as a list of zones belonging to the
queried controller. -/
def get_zones_interpret (controller : Controller)
    (result : List (String × Wire)) : Except Err (List Zone) :=
  match lookup result "controller" with
  | some (.dict cd) =>
    match lookup cd "zones" with
    | some (.list ws) => deserializeZoneList controller.id ws
    | some _ => .error (.deserializationError "Zone")
    | none => .error (.keyError "zones")
  | some _ => .error (.deserializationError "Controller")
  | none => .error (.keyError "controller")

/-- A well-formed zone wire object: both required fields present. -/
def zoneWire (i : Int) (n : String) : Wire :=
  .dict [("id", .num i), ("name", .str n)]

theorem deserializeZoneList_ok_iff (cid : Int) (ws : List Wire) :
    exceptIsOk (deserializeZoneList cid ws) =
      ws.all (fun w => exceptIsOk (deserializeZone cid w)) := by
  induction ws with
  | nil => rfl
  | cons w ws ih =>
    simp only [deserializeZoneList, List.all_cons]
    rw [← ih]
    cases h : deserializeZone cid w with
    | error e => rfl
    | ok z =>
      cases h2 : deserializeZoneList cid ws with
      | error e => rfl
      | ok zs => rfl

/-- C7: a `getZones(controller)` response with two well-formed zone
objects yields exactly those two zones in wire order, each referencing
`controller.id` as its parent; a response in which one object is
missing the required zone identifier raises `DeserializationError` and
yields no entities; and in general the list deserialization succeeds
exactly when every element is well-formed (no partial result). -/
theorem get_zones_deserialization
    (controller : Controller) (i1 i2 : Int) (n1 n2 : String)
    (ws : List Wire) :
    (get_zones_interpret controller
        [("controller",
          Wire.dict [("zones", Wire.list [zoneWire i1 n1, zoneWire i2 n2])])] =
      .ok [⟨i1, n1, controller.id⟩, ⟨i2, n2, controller.id⟩]) ∧
    (get_zones_interpret controller
        [("controller",
          Wire.dict [("zones",
            Wire.list [zoneWire i1 n1, Wire.dict [("name", Wire.str n2)]])])] =
      .error (.deserializationError "Zone")) ∧
    (exceptIsOk (deserializeZoneList controller.id ws) =
      ws.all (fun w => exceptIsOk (deserializeZone controller.id w))) := by
  refine ⟨?_, ?_, deserializeZoneList_ok_iff controller.id ws⟩ <;>
    simp [get_zones_interpret, lookup, deserializeZoneList,
      deserializeZone, zoneWire]

end Pydrawise
